import Mathlib

/-!
Shallow embedding of `commands.py` of the webdrive-module repository
(the Play-framework plugin command `webdrive:test`), together with proofs
about its behaviour.

The script is straight-line Python 2 with side effects (prints, directory
deletions, HTTP kill requests, two subprocesses).  We embed it as a pure
function from an `App`/`World` environment (the externally observed data:
configuration values, file existence, subprocess outcomes, log lines) to a
trace of effect events plus a termination outcome.
-/

namespace WebDrive

/-! ## Python string primitives, modelled on `List Char` -/

/-- `listIsPre p s`: `p` is a prefix of `s` (character lists). -/
def listIsPre : List Char → List Char → Bool
  | [], _ => true
  | _ :: _, [] => false
  | p :: ps, c :: cs => p = c && listIsPre ps cs

/-- `hasSub pat s`: `pat` occurs as a contiguous substring of `s`. -/
def hasSub (pat : List Char) : List Char → Bool
  | [] => decide (pat = [])
  | c :: cs => listIsPre pat (c :: cs) || hasSub pat cs

/-- Python `needle in haystack` on strings: substring containment. -/
def strContains (haystack needle : String) : Bool :=
  hasSub needle.data haystack.data

/-- Python `s.startswith(pre)`. -/
def strStartsWith (s pre : String) : Bool :=
  listIsPre pre.data s.data

/-- Python `s[n:]`. -/
def strDropN (s : String) (n : Nat) : String :=
  ⟨s.data.drop n⟩

/-- The whitespace characters removed by Python 2 `str.strip()`. -/
def pySpace (c : Char) : Bool :=
  c = ' ' || c = '\t' || c = '\n' || c = '\x0d' || c = '\x0b' || c = '\x0c'

/-- Python `s.strip()`. -/
def pyStrip (s : String) : String :=
  ⟨(((s.data.dropWhile pySpace).reverse.dropWhile pySpace).reverse : List Char)⟩

/-- Python truthiness of a string: non-empty. -/
def pyTruthy (s : String) : Bool := s ≠ ""

/-- Python `list.remove(x)`: drop the first occurrence of `x`
(the script always guards the call, so the missing-value error cannot occur). -/
def pyRemove : List String → String → List String
  | [], _ => []
  | a :: rest, x => if a = x then rest else a :: pyRemove rest x

/-- Split at the first `'='`, as `opt.index('=')` does in `getopt.do_longs`:
`none` when there is no `'='`, otherwise the parts before and after it. -/
def splitEqFirst (s : String) : Option (String × String) :=
  let pre := s.data.takeWhile (fun c => c ≠ '=')
  let rest := s.data.dropWhile (fun c => c ≠ '=')
  match rest with
  | [] => none
  | _ :: tl => some (⟨pre⟩, ⟨tl⟩)

/-- `os.path.join` for the POSIX paths the script builds. -/
def pathJoin (a b : String) : String := a ++ "/" ++ b

/-- `os.path.normpath`; identity on the already-normal paths the script
passes it (it is only used inside a printed message). -/
def osNormpath (s : String) : String := s

/-! ## `getopt.getopt(args, "p:", ["phantomjs="])`

Embedding of CPython's `getopt` specialised to the exact option strings the
script passes: one short option `p` taking an argument, one long option
`phantomjs` taking an argument.  `Except Unit` stands for `GetoptError`. -/

/-- `getopt.long_has_args(opt, ["phantomjs="])`: which long options `opt`
can name (prefix matching), and whether the matched option takes an
argument.  With the single long option `"phantomjs="`, the possibility list
is nonempty exactly when `opt` is a prefix of `"phantomjs="`. -/
def long_has_args (opt : String) : Except Unit (Bool × String) :=
  if strStartsWith "phantomjs=" opt then
    if opt = "phantomjs=" then .ok (false, "phantomjs=")
    else if opt ++ "=" = "phantomjs=" then .ok (true, "phantomjs")
    else .ok (true, "phantomjs")
  else .error ()

/-- The effect of one iteration of the `getopt.getopt` while loop. -/
inductive GetoptStep where
  /-- Loop ends; the current token is kept (non-option token or `"-"`). -/
  | stop
  /-- `"--"`: the token is dropped and the loop ends. -/
  | dashdash
  /-- `GetoptError`. -/
  | raise
  /-- An empty short cluster: nothing emitted, loop continues. -/
  | skip
  /-- Emit one `(option, argument)` pair; `usedNext` says whether the
  argument was taken from the following token (which is then consumed). -/
  | emit (pair : String × String) (usedNext : Bool)

/-- One iteration of the `getopt.getopt` while loop on token `a` (whose
successor, if any, is `next?`), with `getopt.do_longs` and
`getopt.do_shorts` specialised to `"p:"` / `["phantomjs="]`.
`do_longs`: a `--`-token is split at its first `'='`; with no `'='` the
(unique, argument-taking) matched long option takes the next token as its
argument.  `do_shorts`: only `p` is recognised and it takes an argument,
so the cluster loop runs at most one step: a recognised `p` takes the rest
of the token (or the next token) as its argument and ends the cluster; any
other character raises. -/
def getopt_step (a : String) (next? : Option String) : GetoptStep :=
  if strStartsWith a "-" = false ∨ a = "-" then .stop
  else if a = "--" then .dashdash
  else if strStartsWith a "--" then
    match splitEqFirst (strDropN a 2) with
    | some (pre, post) =>
      match long_has_args pre with
      | .error _ => .raise
      | .ok (true, o) => .emit ("--" ++ o, post) false
      | .ok (false, _) => .raise
    | none =>
      match long_has_args (strDropN a 2) with
      | .error _ => .raise
      | .ok (true, o) =>
        match next? with
        | none => .raise
        | some b => .emit ("--" ++ o, b) true
      | .ok (false, o) => .emit ("--" ++ o, "") false
  else
    match (strDropN a 1).data with
    | [] => .skip
    | c :: cs =>
      if c = 'p' then
        if cs = [] then
          match next? with
          | none => .raise
          | some b => .emit ("-p", b) true
        else .emit ("-p", (⟨cs⟩ : String)) false
      else .raise

/-- The `while` loop of `getopt.getopt`: leading option tokens are
processed one `getopt_step` at a time; the loop stops at the end of the
list, at a non-option token, or at `"-"`.  (The `emit _ true, []` case is
unreachable: `getopt_step a none` never emits with `usedNext = true`.) -/
def getopt_go (opts : List (String × String)) (args : List String) :
    Except Unit (List (String × String) × List String) :=
  match args with
  | [] => .ok (opts, [])
  | a :: rest =>
    match getopt_step a rest.head?, rest with
    | .stop, r => .ok (opts, a :: r)
    | .dashdash, r => .ok (opts, r)
    | .raise, _ => .error ()
    | .skip, r => getopt_go opts r
    | .emit pair false, r => getopt_go (opts ++ [pair]) r
    | .emit pair true, _ :: rest2 => getopt_go (opts ++ [pair]) rest2
    | .emit _ true, [] => .error ()

/-- `getopt.getopt(args, "p:", ["phantomjs="])`. -/
def pygetopt (args : List String) :
    Except Unit (List (String × String) × List String) :=
  getopt_go [] args

/-! ## Effect events, environment, outcomes -/

/-- One externally visible side effect of the script, in program order. -/
inductive Ev where
  /-- A `print` statement (one line of output). -/
  | print (s : String)
  /-- An `os.path.exists` query. -/
  | existsCheck (p : String)
  /-- A `shutil.rmtree` deletion. -/
  | rmtree (p : String)
  /-- A `urllib2` opener `open` on a kill URL; `ok` is false when the
  request raised (the script swallows the exception either way). -/
  | urlopen (url : String) (ok : Bool)
  /-- `open(path, 'w')`. -/
  | openW (p : String)
  /-- `open(path, 'r')` (default mode). -/
  | openR (p : String)
  /-- `subprocess.Popen` of the application-server command. -/
  | popen (cmd : List String)
  /-- `subprocess.call` of the test-runner command (blocks until exit). -/
  | callProc (cmd : List String)
deriving DecidableEq, Repr

/-- How the `test` function ends. -/
inductive Outcome where
  /-- `sys.exit(code)`. -/
  | exited (code : Int)
  /-- Fell off the end of `test`; the process then terminates with exit
  code 0 (spec section 6: "exit codes 0 (pass or no explicit failure
  detected)"). -/
  | finished
  /-- The readiness loop was still running after all observed iterations:
  within the finite observation window it neither broke nor exited. -/
  | spinning
  /-- An uncaught Python exception (the `IndexError` reachable from
  `args.remove(args[0])` on an empty list). -/
  | pyError
deriving DecidableEq, Repr

/-- The process exit code determined by an outcome, when one is. -/
def exitCode : Outcome → Option Int
  | .exited c => some c
  | .finished => some 0
  | .spinning => none
  | .pyError => none

/-- What the script observes in one iteration of the readiness loop:
the current `play_process.poll()` result (`none` while running, the exit
status once terminated) and the `soutint.readline()` result (`""` at EOF). -/
structure LoopObs where
  poll : Option Int
  line : String
deriving DecidableEq, Repr

/-- The externally supplied `app` object (`play.application`): path,
log path, configuration lookup (`readConf` yields `""` for unset keys),
`java_cmd`, `getClasspath`. -/
structure App where
  path : String
  logPath : String
  readConf : String → String
  javaCmd : List String → List String
  classpath : List String

/-- Outcomes of the world outside the script: file existence, subprocess
launch results, kill-request results, the readiness-loop observations,
`os.name` and `java_path()`. -/
structure World where
  tmpExists : Bool
  testResultExists : Bool
  kill1Fails : Bool
  kill2Fails : Bool
  popenFails : Bool
  loopObs : List LoopObs
  callFails : Bool
  passedExists : Bool
  failedExists : Bool
  osName : String
  javaPath : String

/-- Python truthiness of `play_process.poll()`: `None` and exit status `0`
are both falsy; only a nonzero exit status enters the fatal branch. -/
def pollTruthy : Option Int → Bool
  | none => false
  | some c => c ≠ 0

/-! ## The flag-parsing step (lines 68-92) -/

/-- Result of the parameter-reading block: the accumulated `add_options`,
the mutated `args`, the events printed, and whether the block completed
(`ok = false` models the uncaught `IndexError` from `args.remove(args[0])`
when `args` is empty). -/
structure ParseOut where
  add_options : List String
  args : List String
  events : List Ev
  ok : Bool
deriving Repr

/-- The `for opt, arg in opts:` loop (lines 84-89).  Python's
`opt in ("--phantomjs")` is a substring test on the *string*
`"--phantomjs"` (the parentheses do not make a tuple); both `"-p"` and
`"--phantomjs"` are substrings of it.  `args.remove(args[0])` removes the
first element of the current `args`. -/
def phantomLoop (add args : List String) (evs : List Ev) :
    List (String × String) → ParseOut
  | [] => ⟨add, args, evs, true⟩
  | (opt, arg) :: rest =>
    if strContains "--phantomjs" opt then
      match args with
      | [] => ⟨add ++ ["-Dphantomjs.binary.path=" ++ arg], args, evs, false⟩
      | a0 :: _ =>
        phantomLoop (add ++ ["-Dphantomjs.binary.path=" ++ arg]) (pyRemove args a0)
          (evs ++ [.print ("~ use phantomjs path : " ++ arg), .print "~~~~~"]) rest
    else phantomLoop add args evs rest

/-- The `try/except getopt` block, lines 82-92: parse the remaining
arguments with `getopt`; on `GetoptError` print the message and keep
everything unchanged, otherwise run the `for opt, arg in opts` loop. -/
def phantomBlock (add args3 : List String) : ParseOut :=
  match pygetopt args3 with
  | .error _ =>
    ⟨add, args3,
      [.print "~ No PhantomJs execution path define. You can specified it with -p <path> or --phantomjs=<path>"],
      true⟩
  | .ok (opts, _args2) => phantomLoop add args3 [] opts

/-- Lines 68-92.  The three flag `if`s run in sequence; the
`try/except getopt` block (lines 82-92) is indented with tabs, which
Python 2 expands to column 8, so it is part of the
`if args.count('--selenium'):` suite and only runs when `--selenium`
was present. -/
def parseArgs (args0 : List String) : ParseOut :=
  let s1 := if args0.count "--unit" ≠ 0 then
    (pyRemove args0 "--unit", ["-DrunUnitTests=true"]) else (args0, [])
  let s2 := if s1.1.count "--functional" ≠ 0 then
    (pyRemove s1.1 "--functional", s1.2 ++ ["-DrunFunctionalTests=true"]) else s1
  if s2.1.count "--selenium" ≠ 0 then
    phantomBlock (s2.2 ++ ["-DrunSeleniumTests=true"]) (pyRemove s2.1 "--selenium")
  else ⟨s2.2, s2.1, [], true⟩

/-! ## The readiness loop (lines 106-117) -/

/-- The fixed readiness substring. -/
def readyStr : String := "Listening for HTTP"

/-- The `while True:` readiness loop, driven by the per-iteration
observations.  Returns the printed events together with
`some false` (fatal branch: `poll()` truthy), `some true` (the readiness
substring was found, `break`), or `none` (observations exhausted with the
loop still running). -/
def waitReady : List LoopObs → List Ev × Option Bool
  | [] => ([], none)
  | o :: rest =>
    if pollTruthy o.poll then
      ([.print "~", .print "~ Oops, application has not started?", .print "~"], some false)
    else
      let line := pyStrip o.line
      if line = "" then waitReady rest
      else if strContains line readyStr then ([.print line], some true)
      else
        let r := waitReady rest
        (.print line :: r.1, r.2)

/-! ## The `test` function (lines 37-158) -/

/-- Port and protocol selection (lines 54-60): the initial `9000` is dead
since both branches of the `if` assign `http_port`. -/
def selPort (app : App) : String :=
  if pyTruthy (app.readConf "https.port") then app.readConf "https.port"
  else app.readConf "http.port"

/-- See `selPort`. -/
def selProtocol (app : App) : String :=
  if pyTruthy (app.readConf "https.port") then "https" else "http"

/-- The classpath string (lines 122-125): joined with `':'`, re-joined
with `';'` on Windows. -/
def cpArgsOf (app : App) (w : World) : String :=
  if w.osName = "nt" then String.intercalate ";" app.classpath
  else String.intercalate ":" app.classpath

/-- The test-runner command line (lines 126-133). -/
def mkRunnerCmd (app : App) (w : World) (add_options : List String) : List String :=
  [w.javaPath] ++ add_options ++ ["-classpath", cpArgsOf app w,
    "-Dwebdrive.classes=" ++ app.readConf "webdrive.classes",
    "-Dwebdrive.timeout=" ++ app.readConf "webdrive.timeout",
    "-Dwebdrive.htmlunit.js.enable=" ++ app.readConf "webdrive.htmlunit.js.enable",
    "-Dwebdrive.test.retry=" ++ app.readConf "webdrive.test.retry",
    "-Dapplication.baseUrl=" ++ app.readConf "webdrive.test.base.url",
    "-Dapplication.url=" ++ selProtocol app ++ "://localhost:" ++ selPort app,
    "play.modules.webdrive.WebDriverRunner"]

/-- The whole run: event trace plus outcome. -/
structure TestRun where
  events : List Ev
  outcome : Outcome
deriving Repr

/-- The `test` function of `commands.py`, lines 37-158, as a straight-line
trace builder.  (`app.check()` and the framework-id forcing of lines 38-42
touch no state this model observes and emit no output.) -/
def test (app : App) (w : World) (args0 : List String) : TestRun :=
  let tmpPath := pathJoin app.path "tmp"
  let preEvs : List Ev :=
    [.print "~ Running tests with webdriver", .print "~ Ctrl+C to stop", .print "~ ",
     .print ("~ Deleting " ++ osNormpath tmpPath), .existsCheck tmpPath] ++
    (if w.tmpExists then [.rmtree tmpPath] else []) ++ [.print "~"] ++
    [.urlopen ("http://localhost:" ++ selPort app ++ "/@kill") (!w.kill1Fails)]
  let p := parseArgs args0
  if p.ok = false then ⟨preEvs ++ p.events, .pyError⟩ else
  let test_result := pathJoin app.path "test-result"
  let soutPath := pathJoin app.logPath "system.out"
  let evs2 := preEvs ++ p.events ++ [.existsCheck test_result] ++
    (if w.testResultExists then [.rmtree test_result] else []) ++ [.openW soutPath]
  let serverCmd := app.javaCmd p.args
  if w.popenFails then
    ⟨evs2 ++ [.print "Could not execute the java executable, please make sure the JAVA_HOME environment variable is set properly (the java executable should reside at JAVA_HOME/bin/java). "],
      .exited (-1)⟩ else
  let evs3 := evs2 ++ [.popen serverCmd, .openR soutPath] ++ (waitReady w.loopObs).1
  match (waitReady w.loopObs).2 with
  | some false => ⟨evs3, .exited (-1)⟩
  | none => ⟨evs3, .spinning⟩
  | some true =>
    let runnerCmd := mkRunnerCmd app w p.add_options
    let evs4 := evs3 ++ [.print "~"]
    if w.callFails then
      ⟨evs4 ++ [.print "Could not execute web driver."], .exited (-1)⟩ else
    let evs5 := evs4 ++ [.callProc runnerCmd, .print "~",
      .urlopen (selProtocol app ++ "://localhost:" ++ app.readConf "http.port" ++ "/@kill") (!w.kill2Fails)]
    let evs6 := evs5 ++ [.existsCheck (pathJoin app.path "test-result/result.passed")] ++
      (if w.passedExists then [.print "~ All tests passed", .print "~"] else []) ++
      [.existsCheck (pathJoin app.path "test-result/result.failed")]
    if w.failedExists then
      ⟨evs6 ++ [.print ("~ Some tests have failed. See file://" ++ test_result ++ " for results"), .print "~"],
        .exited 1⟩
    else ⟨evs6, .finished⟩

/-- The URL of a kill-request event, if the event is one. -/
def killOf : Ev → Option String
  | .urlopen u _ => some u
  | _ => none

/-- The kill URLs requested during a run, in order. -/
def killURLs (r : TestRun) : List String :=
  r.events.filterMap killOf

/-- The test-runner command invoked during a run, if any. -/
def runnerCmdOf (r : TestRun) : Option (List String) :=
  r.events.findSome? fun e => match e with
    | .callProc c => some c
    | _ => none

/-- The server command spawned during a run, if any. -/
def serverCmdOf (r : TestRun) : Option (List String) :=
  r.events.findSome? fun e => match e with
    | .popen c => some c
    | _ => none

/-! ## Concrete sample environments (for witnesses and counterexamples) -/

/-- A concrete application: no configuration keys set, server command
`java :: args`. -/
def app0 : App :=
  { path := "/app", logPath := "/app/logs", readConf := fun _ => "",
    javaCmd := fun args => "java" :: args, classpath := ["a.jar", "b.jar"] }

/-- A concrete application with `https.port` and `http.port` configured. -/
def app4 : App :=
  { app0 with readConf := fun k =>
      if k = "https.port" then "443" else if k = "http.port" then "9000" else "" }

/-- A concrete happy-path world: both directories exist, both kill
requests fail (and are ignored), the server starts and becomes ready on
its second log line, the runner runs, no marker file exists. -/
def w0 : World :=
  { tmpExists := true, testResultExists := true, kill1Fails := true,
    kill2Fails := true, popenFails := false,
    loopObs := [⟨none, "boot"⟩, ⟨none, " Listening for HTTP on port 9000 "⟩],
    callFails := false, passedExists := false, failedExists := false,
    osName := "posix", javaPath := "java" }

/-! ## Helper lemmas -/

theorem pyRemove_eq_erase (l : List String) (x : String) :
    pyRemove l x = l.erase x := by
  induction l with
  | nil => rfl
  | cons a t ih =>
    by_cases h : a = x <;> simp [pyRemove, List.erase_cons, h, ih]

/-- Every event emitted by `phantomLoop` beyond the given accumulator is a
`print`. -/
theorem phantomLoop_events_print (opts : List (String × String)) :
    ∀ add args evs, (∀ e ∈ evs, ∃ s, e = Ev.print s) →
      ∀ e ∈ (phantomLoop add args evs opts).events, ∃ s, e = Ev.print s := by
  induction opts with
  | nil => intro add args evs hevs e he; exact hevs e he
  | cons p rest ih =>
    intro add args evs hevs e he
    obtain ⟨opt, arg⟩ := p
    simp only [phantomLoop] at he
    split at he
    · match args, he with
      | [], he => exact hevs e he
      | a0 :: t, he =>
        refine ih _ _ _ ?_ e he
        intro e' he'
        rcases List.mem_append.1 he' with h | h
        · exact hevs e' h
        · simp only [List.mem_cons, List.mem_singleton] at h
          rcases h with h | h | h
          · exact ⟨_, h⟩
          · exact ⟨_, h⟩
          · cases h
    · exact ih _ _ _ hevs e he

/-- Every event emitted by the `try/except getopt` block is a `print`. -/
theorem phantomBlock_events_print (add l : List String) :
    ∀ e ∈ (phantomBlock add l).events, ∃ s, e = Ev.print s := by
  intro e he
  simp only [phantomBlock] at he
  split at he
  · simp only [List.mem_singleton] at he
    exact ⟨_, he⟩
  · exact phantomLoop_events_print _ _ _ _ (by intro e' he'; cases he') e he

/-- Every event emitted by the parameter-reading block is a `print`. -/
theorem parseArgs_events_print (args0 : List String) :
    ∀ e ∈ (parseArgs args0).events, ∃ s, e = Ev.print s := by
  intro e he
  simp only [parseArgs] at he
  repeat' split at he
  all_goals first
    | exact absurd he (List.not_mem_nil _)
    | exact phantomBlock_events_print _ _ e he

/-- Every event emitted by the readiness loop is a `print`. -/
theorem waitReady_events_print (obs : List LoopObs) :
    ∀ e ∈ (waitReady obs).1, ∃ s, e = Ev.print s := by
  induction obs with
  | nil => intro e he; cases he
  | cons o rest ih =>
    intro e he
    simp only [waitReady] at he
    split at he
    · simp only [List.mem_cons, List.mem_singleton] at he
      rcases he with h | h | h | h
      · exact ⟨_, h⟩
      · exact ⟨_, h⟩
      · exact ⟨_, h⟩
      · cases h
    · split at he
      · exact ih e he
      · split at he
        · simp only [List.mem_singleton] at he
          exact ⟨_, he⟩
        · simp only [List.mem_cons] at he
          rcases he with h | h
          · exact ⟨_, h⟩
          · exact ih e h

/-- The event trace of a run that reaches the final marker inspection
(parse block completes, server launches, readiness seen, runner launches),
written as an explicit concatenation of the per-step segments. -/
theorem test_events_full (app : App) (w : World) (args0 : List String)
    (hp : (parseArgs args0).ok = true) (hpo : w.popenFails = false)
    (hready : (waitReady w.loopObs).2 = some true) (hcall : w.callFails = false) :
    (test app w args0).events =
      [.print "~ Running tests with webdriver", .print "~ Ctrl+C to stop", .print "~ ",
       .print ("~ Deleting " ++ osNormpath (pathJoin app.path "tmp")),
       .existsCheck (pathJoin app.path "tmp")] ++
      (if w.tmpExists then [.rmtree (pathJoin app.path "tmp")] else []) ++
      [.print "~", .urlopen ("http://localhost:" ++ selPort app ++ "/@kill") (!w.kill1Fails)] ++
      (parseArgs args0).events ++ [.existsCheck (pathJoin app.path "test-result")] ++
      (if w.testResultExists then [.rmtree (pathJoin app.path "test-result")] else []) ++
      [.openW (pathJoin app.logPath "system.out"),
       .popen (app.javaCmd (parseArgs args0).args), .openR (pathJoin app.logPath "system.out")] ++
      (waitReady w.loopObs).1 ++
      [.print "~", .callProc (mkRunnerCmd app w (parseArgs args0).add_options), .print "~",
       .urlopen (selProtocol app ++ "://localhost:" ++ app.readConf "http.port" ++ "/@kill") (!w.kill2Fails),
       .existsCheck (pathJoin app.path "test-result/result.passed")] ++
      (if w.passedExists then [.print "~ All tests passed", .print "~"] else []) ++
      [.existsCheck (pathJoin app.path "test-result/result.failed")] ++
      (if w.failedExists then
        [.print ("~ Some tests have failed. See file://" ++ pathJoin app.path "test-result" ++ " for results"),
         .print "~"] else []) := by
  cases hf : w.failedExists <;> simp [test, hp, hpo, hready, hcall, hf]

/-- The event trace of a run in which the test-runner launch raises
`OSError` (line 136): everything through `print "~"` after the readiness
loop, then the error message, and nothing else. -/
theorem test_events_callFail (app : App) (w : World) (args0 : List String)
    (hp : (parseArgs args0).ok = true) (hpo : w.popenFails = false)
    (hready : (waitReady w.loopObs).2 = some true) (hcall : w.callFails = true) :
    (test app w args0).events =
      [.print "~ Running tests with webdriver", .print "~ Ctrl+C to stop", .print "~ ",
       .print ("~ Deleting " ++ osNormpath (pathJoin app.path "tmp")),
       .existsCheck (pathJoin app.path "tmp")] ++
      (if w.tmpExists then [.rmtree (pathJoin app.path "tmp")] else []) ++
      [.print "~", .urlopen ("http://localhost:" ++ selPort app ++ "/@kill") (!w.kill1Fails)] ++
      (parseArgs args0).events ++ [.existsCheck (pathJoin app.path "test-result")] ++
      (if w.testResultExists then [.rmtree (pathJoin app.path "test-result")] else []) ++
      [.openW (pathJoin app.logPath "system.out"),
       .popen (app.javaCmd (parseArgs args0).args), .openR (pathJoin app.logPath "system.out")] ++
      (waitReady w.loopObs).1 ++
      [.print "~", .print "Could not execute web driver."] := by
  simp [test, hp, hpo, hready, hcall]

/-! ## C1 -/

/-- C1: for every run that reaches the final marker-file inspection, the
script terminates with exit code 1 when `test-result/result.failed`
exists, and with exit code 0 when it does not, regardless of whether
`test-result/result.passed` exists. -/
theorem c1_failed_marker_decides_exit_code (app : App) (w : World) (args0 : List String)
    (hp : (parseArgs args0).ok = true) (hpo : w.popenFails = false)
    (hready : (waitReady w.loopObs).2 = some true) (hcall : w.callFails = false) :
    exitCode (test app w args0).outcome = some (if w.failedExists then 1 else 0) := by
  cases hf : w.failedExists <;> simp [test, hp, hpo, hready, hcall, hf, exitCode]

/-- Witness for C1 at a concrete happy-path run with no failure marker. -/
theorem c1_failed_marker_decides_exit_code_witness :
    exitCode (test app0 w0 []).outcome = some 0 := by
  have h := c1_failed_marker_decides_exit_code app0 w0 []
    (by decide) (by decide) (by decide) (by decide)
  simpa [w0] using h

/-! ## C10 -/

/-- C10 (implicit): when both marker files exist after the runner exits,
the script prints the all-tests-passed message and nevertheless terminates
with exit code 1 — the failure marker takes precedence. -/
theorem c10_failure_marker_takes_precedence (app : App) (w : World) (args0 : List String)
    (hp : (parseArgs args0).ok = true) (hpo : w.popenFails = false)
    (hready : (waitReady w.loopObs).2 = some true) (hcall : w.callFails = false)
    (hpass : w.passedExists = true) (hfail : w.failedExists = true) :
    (test app w args0).outcome = .exited 1 ∧
    Ev.print "~ All tests passed" ∈ (test app w args0).events := by
  constructor
  · simp [test, hp, hpo, hready, hcall, hfail]
  · rw [test_events_full app w args0 hp hpo hready hcall]
    simp [hpass]

/-- Witness for C10 at a concrete run with both marker files present. -/
theorem c10_failure_marker_takes_precedence_witness :
    (test app0 { w0 with passedExists := true, failedExists := true } []).outcome = .exited 1 ∧
    Ev.print "~ All tests passed" ∈
      (test app0 { w0 with passedExists := true, failedExists := true } []).events :=
  c10_failure_marker_takes_precedence app0 _ []
    (by decide) (by decide) (by decide) (by decide) (by decide) (by decide)

/-! ## C2 -/

/-- If no observed iteration has a truthy `poll()` and no observed line
contains the readiness substring, the readiness loop is still running
after all the observed iterations. -/
theorem waitReady_spins (obs : List LoopObs)
    (h0 : ∀ o ∈ obs, pollTruthy o.poll = false)
    (h1 : ∀ o ∈ obs, strContains (pyStrip o.line) readyStr = false) :
    (waitReady obs).2 = none := by
  induction obs with
  | nil => rfl
  | cons o rest ih =>
    have hp := h0 o (List.mem_cons_self o rest)
    have hl := h1 o (List.mem_cons_self o rest)
    have ih' := ih (fun o' ho' => h0 o' (List.mem_cons_of_mem o ho'))
      (fun o' ho' => h1 o' (List.mem_cons_of_mem o ho'))
    simp [waitReady, hp, hl, ih', apply_ite]

/-- C2 is a code bug.  The claim (and the spec) say that death of the
server process before readiness is always fatal with exit code -1, but
line 107 tests `if play_process.poll():`, and `poll()` returns the exit
status, so a server that terminates with status 0 is treated as still
running: the loop keeps re-reading the log forever instead of exiting.
This theorem evaluates the code on the failing-input class: the server
process has terminated with status 0 (every `poll()` observation is
`some 0`) and the readiness substring never appears; after arbitrarily
many observed iterations the script is still in the loop — it never
reaches `sys.exit(-1)` (nor any other exit). -/
theorem c2_zero_status_death_spins_forever (app : App) (w : World) (args0 : List String)
    (hp : (parseArgs args0).ok = true) (hpo : w.popenFails = false)
    (h0 : ∀ o ∈ w.loopObs, o.poll = some 0)
    (h1 : ∀ o ∈ w.loopObs, strContains (pyStrip o.line) readyStr = false) :
    (test app w args0).outcome = .spinning ∧
    exitCode (test app w args0).outcome = none := by
  have hspin : (waitReady w.loopObs).2 = none :=
    waitReady_spins w.loopObs
      (fun o ho => by rw [h0 o ho]; rfl) h1
  constructor <;> simp [test, hp, hpo, hspin, exitCode]

/-- Witness for C2's theorem: a concrete run whose server died with
status 0 before ever listening. -/
theorem c2_zero_status_death_spins_forever_witness :
    (test app0 { w0 with loopObs := [⟨some 0, "shutting down"⟩, ⟨some 0, ""⟩] } []).outcome
      = .spinning ∧
    exitCode (test app0 { w0 with loopObs := [⟨some 0, "shutting down"⟩, ⟨some 0, ""⟩] } []).outcome
      = none :=
  c2_zero_status_death_spins_forever app0 _ []
    (by decide) (by decide) (by decide) (by decide)

/-! ## Membership helper lemmas: the parse block and the readiness loop
emit only `print` events -/

theorem callProc_not_mem_parse (args0 : List String) (c : List String) :
    Ev.callProc c ∉ (parseArgs args0).events := fun h => by
  obtain ⟨s, hs⟩ := parseArgs_events_print args0 _ h
  exact Ev.noConfusion hs

theorem callProc_not_mem_wait (obs : List LoopObs) (c : List String) :
    Ev.callProc c ∉ (waitReady obs).1 := fun h => by
  obtain ⟨s, hs⟩ := waitReady_events_print obs _ h
  exact Ev.noConfusion hs

theorem existsCheck_not_mem_parse (args0 : List String) (q : String) :
    Ev.existsCheck q ∉ (parseArgs args0).events := fun h => by
  obtain ⟨s, hs⟩ := parseArgs_events_print args0 _ h
  exact Ev.noConfusion hs

theorem existsCheck_not_mem_wait (obs : List LoopObs) (q : String) :
    Ev.existsCheck q ∉ (waitReady obs).1 := fun h => by
  obtain ⟨s, hs⟩ := waitReady_events_print obs _ h
  exact Ev.noConfusion hs

theorem urlopen_not_mem_parse (args0 : List String) (u : String) (b : Bool) :
    Ev.urlopen u b ∉ (parseArgs args0).events := fun h => by
  obtain ⟨s, hs⟩ := parseArgs_events_print args0 _ h
  exact Ev.noConfusion hs

theorem urlopen_not_mem_wait (obs : List LoopObs) (u : String) (b : Bool) :
    Ev.urlopen u b ∉ (waitReady obs).1 := fun h => by
  obtain ⟨s, hs⟩ := waitReady_events_print obs _ h
  exact Ev.noConfusion hs

theorem filterMap_killOf_parse (args0 : List String) :
    ((parseArgs args0).events.filterMap killOf) = [] := by
  rw [List.filterMap_eq_nil_iff]
  intro e he
  obtain ⟨s, hs⟩ := parseArgs_events_print args0 _ he
  subst hs
  rfl

theorem filterMap_killOf_wait (obs : List LoopObs) :
    ((waitReady obs).1.filterMap killOf) = [] := by
  rw [List.filterMap_eq_nil_iff]
  intro e he
  obtain ⟨s, hs⟩ := waitReady_events_print obs _ he
  subst hs
  rfl

/-! ## C3 -/

/-- If the readiness loop broke out (successfully), some observed line
contains the readiness substring after stripping. -/
theorem waitReady_ready_imp (obs : List LoopObs)
    (h : (waitReady obs).2 = some true) :
    ∃ o ∈ obs, strContains (pyStrip o.line) readyStr = true := by
  induction obs with
  | nil => cases h
  | cons o rest ih =>
    simp only [waitReady] at h
    split at h
    · cases h
    · split at h
      · obtain ⟨o', ho', hc⟩ := ih h
        exact ⟨o', List.mem_cons_of_mem o ho', hc⟩
      · split at h
        · rename_i hc
          exact ⟨o, List.mem_cons_self o rest, hc⟩
        · obtain ⟨o', ho', hc⟩ := ih h
          exact ⟨o', List.mem_cons_of_mem o ho', hc⟩

/-- If no poll observation is truthy and some observed line contains the
readiness substring, the loop breaks out successfully. -/
theorem waitReady_ready_of_exists (obs : List LoopObs)
    (h0 : ∀ o ∈ obs, pollTruthy o.poll = false)
    (h1 : ∃ o ∈ obs, strContains (pyStrip o.line) readyStr = true) :
    (waitReady obs).2 = some true := by
  induction obs with
  | nil => obtain ⟨o, ho, _⟩ := h1; cases ho
  | cons o rest ih =>
    have hp := h0 o (List.mem_cons_self o rest)
    have ih' := ih fun o' ho' => h0 o' (List.mem_cons_of_mem o ho')
    simp only [waitReady, hp, Bool.false_eq_true, if_false]
    by_cases hemp : pyStrip o.line = ""
    · have hrest : ∃ o' ∈ rest, strContains (pyStrip o'.line) readyStr = true := by
        obtain ⟨o', ho', hc⟩ := h1
        rcases List.mem_cons.1 ho' with rfl | ho''
        · rw [hemp] at hc
          exact absurd hc (by decide)
        · exact ⟨o', ho'', hc⟩
      simp [hemp, ih' hrest]
    · by_cases hc : strContains (pyStrip o.line) readyStr = true
      · simp [hemp, hc]
      · have hrest : ∃ o' ∈ rest, strContains (pyStrip o'.line) readyStr = true := by
          obtain ⟨o', ho', hc'⟩ := h1
          rcases List.mem_cons.1 ho' with rfl | ho''
          · exact absurd hc' hc
          · exact ⟨o', ho'', hc'⟩
        simp [hemp, hc, ih' hrest]

/-- No test-runner process is spawned in a run whose readiness loop never
broke out. -/
theorem no_callProc_unless_ready (app : App) (w : World) (args0 : List String)
    (hnready : (waitReady w.loopObs).2 ≠ some true) :
    ∀ c, Ev.callProc c ∉ (test app w args0).events := by
  intro c hmem
  rcases hr : (waitReady w.loopObs).2 with _ | b
  case some =>
    cases b
    case true => exact hnready hr
    case false =>
      cases hok : (parseArgs args0).ok <;> cases hpo : w.popenFails <;>
        cases ht : w.tmpExists <;> cases hres : w.testResultExists <;>
        simp [test, hok, hpo, hr, ht, hres, callProc_not_mem_parse,
          callProc_not_mem_wait] at hmem
  case none =>
    cases hok : (parseArgs args0).ok <;> cases hpo : w.popenFails <;>
      cases ht : w.tmpExists <;> cases hres : w.testResultExists <;>
      simp [test, hok, hpo, hr, ht, hres, callProc_not_mem_parse,
        callProc_not_mem_wait] at hmem

/-- C3: the readiness loop reads the log line by line and proceeds
(breaks out) exactly when a read line contains the fixed substring
`"Listening for HTTP"`: (1) a successful exit implies such a line was
observed; (2) if no observed line contains the substring the loop never
exits successfully, and (4) the test-runner subprocess is then never
invoked; (3) conversely, when the process never polls truthy and a line
contains the substring, the loop exits successfully. -/
theorem c3_ready_loop_iff_substring (app : App) (w : World) (args0 : List String) :
    ((waitReady w.loopObs).2 = some true →
      ∃ o ∈ w.loopObs, strContains (pyStrip o.line) readyStr = true) ∧
    ((∀ o ∈ w.loopObs, strContains (pyStrip o.line) readyStr = false) →
      (waitReady w.loopObs).2 ≠ some true) ∧
    ((∀ o ∈ w.loopObs, pollTruthy o.poll = false) →
      (∃ o ∈ w.loopObs, strContains (pyStrip o.line) readyStr = true) →
      (waitReady w.loopObs).2 = some true) ∧
    ((∀ o ∈ w.loopObs, strContains (pyStrip o.line) readyStr = false) →
      ∀ c, Ev.callProc c ∉ (test app w args0).events) := by
  refine ⟨waitReady_ready_imp w.loopObs, ?_, waitReady_ready_of_exists w.loopObs, ?_⟩
  · intro hnone hready
    obtain ⟨o, ho, hc⟩ := waitReady_ready_imp w.loopObs hready
    rw [hnone o ho] at hc
    cases hc
  · intro hnone
    refine no_callProc_unless_ready app w args0 fun hready => ?_
    obtain ⟨o, ho, hc⟩ := waitReady_ready_imp w.loopObs hready
    rw [hnone o ho] at hc
    cases hc

/-- Witness for C3: its first implication applied to a concrete run whose
loop exits successfully yields the line that contains the substring. -/
theorem c3_ready_loop_iff_substring_witness :
    ∃ o ∈ w0.loopObs, strContains (pyStrip o.line) readyStr = true :=
  (c3_ready_loop_iff_substring app0 w0 []).1 (by decide)

/-! ## C9 -/

/-- C9: if spawning the test-runner subprocess raises `OSError`, the
script prints an error message and terminates immediately with
`sys.exit(-1)`, without inspecting the marker files (no existence check
beyond the two directory checks happens, and the second kill request is
never issued). -/
theorem c9_runner_launch_failure_exits (app : App) (w : World) (args0 : List String)
    (hp : (parseArgs args0).ok = true) (hpo : w.popenFails = false)
    (hready : (waitReady w.loopObs).2 = some true) (hcall : w.callFails = true) :
    (test app w args0).outcome = .exited (-1) ∧
    Ev.print "Could not execute web driver." ∈ (test app w args0).events ∧
    (∀ q, Ev.existsCheck q ∈ (test app w args0).events →
      q = pathJoin app.path "tmp" ∨ q = pathJoin app.path "test-result") ∧
    (∀ u b, Ev.urlopen u b ∈ (test app w args0).events →
      u = "http://localhost:" ++ selPort app ++ "/@kill") := by
  have htr := test_events_callFail app w args0 hp hpo hready hcall
  refine ⟨?_, ?_, ?_, ?_⟩
  · simp [test, hp, hpo, hready, hcall]
  · rw [htr]; simp
  · intro q hq
    rw [htr] at hq
    cases ht : w.tmpExists <;> cases hres : w.testResultExists <;>
      simp [ht, hres, existsCheck_not_mem_parse, existsCheck_not_mem_wait] at hq <;>
      tauto
  · intro u b hu
    rw [htr] at hu
    cases ht : w.tmpExists <;> cases hres : w.testResultExists <;>
      simp [ht, hres, urlopen_not_mem_parse, urlopen_not_mem_wait] at hu <;>
      tauto

/-- Witness for C9 at a concrete run whose runner launch fails. -/
theorem c9_runner_launch_failure_exits_witness :
    (test app0 { w0 with callFails := true } []).outcome = .exited (-1) :=
  (c9_runner_launch_failure_exits app0 _ []
    (by decide) (by decide) (by decide) (by decide)).1

/-! ## C4 -/

/-- C4's claimed kill endpoint, following the claim's words (NOT the
code): `/@kill` on localhost at the application server's configured port —
`https.port` with the `https` protocol when that key is set, otherwise
`http.port` with `http`. -/
def specKillURL (app : App) : String :=
  if pyTruthy (app.readConf "https.port") then
    "https://localhost:" ++ app.readConf "https.port" ++ "/@kill"
  else
    "http://localhost:" ++ app.readConf "http.port" ++ "/@kill"

/-- Counterexample to C4.  With `https.port = "443"` and
`http.port = "9000"`, the first kill request goes to
`http://localhost:443/@kill` (the `'http'` scheme is hard-coded in the
format string of line 64 even though the https port was selected), and the
second goes to `https://localhost:9000/@kill` (line 143 re-reads
`http.port`, but line 147 keeps the `https` scheme).  Neither matches the
claimed endpoint `https://localhost:443/@kill`, and the two requests do
not target the same endpoint. -/
theorem c4_counterexample :
    killURLs (test app4 w0 []) =
      ["http://localhost:443/@kill", "https://localhost:9000/@kill"] ∧
    specKillURL app4 = "https://localhost:443/@kill" ∧
    killURLs (test app4 w0 []) ≠ [specKillURL app4, specKillURL app4] := by
  refine ⟨by decide, by decide, ?_⟩
  decide

/-- C4 amended: in every run that completes both kill requests, the first
request uses the `http` scheme with the selected port (`https.port` when
set, else `http.port`), and the second uses the selected protocol but
always the `http.port` value; when `https.port` is unset the two coincide
at `http://localhost:<http.port>/@kill`. -/
theorem c4_amended_kill_urls (app : App) (w : World) (args0 : List String)
    (hp : (parseArgs args0).ok = true) (hpo : w.popenFails = false)
    (hready : (waitReady w.loopObs).2 = some true) (hcall : w.callFails = false) :
    killURLs (test app w args0) =
      ["http://localhost:" ++ selPort app ++ "/@kill",
       selProtocol app ++ "://localhost:" ++ app.readConf "http.port" ++ "/@kill"] ∧
    (pyTruthy (app.readConf "https.port") = false →
      killURLs (test app w args0) =
        ["http://localhost:" ++ app.readConf "http.port" ++ "/@kill",
         "http://localhost:" ++ app.readConf "http.port" ++ "/@kill"]) := by
  have h1 : killURLs (test app w args0) =
      ["http://localhost:" ++ selPort app ++ "/@kill",
       selProtocol app ++ "://localhost:" ++ app.readConf "http.port" ++ "/@kill"] := by
    rw [killURLs, test_events_full app w args0 hp hpo hready hcall]
    cases ht : w.tmpExists <;> cases hres : w.testResultExists <;>
      cases hpa : w.passedExists <;> cases hf : w.failedExists <;>
      simp [filterMap_killOf_parse, filterMap_killOf_wait, killOf]
  refine ⟨h1, fun hh => ?_⟩
  rw [h1, selPort, selProtocol, hh]
  simp

/-- Witness for C4's amended theorem at a concrete http-only run. -/
theorem c4_amended_kill_urls_witness :
    killURLs (test app0 w0 []) = ["http://localhost:/@kill", "http://localhost:/@kill"] := by
  have h := (c4_amended_kill_urls app0 w0 []
    (by decide) (by decide) (by decide) (by decide)).2 (by decide)
  simpa [app0] using h

/-! ## C8 -/

/-- Forget whether a kill request succeeded; identity on all other events. -/
def scrubKill : Ev → Ev
  | .urlopen u _ => .urlopen u true
  | e => e

/-- C8: the outcome of a kill request (success, or any exception while
opening the `/@kill` URL) is swallowed by the bare `except: pass`; runs
that differ only in the kill-request outcomes have the same termination
outcome, the same events apart from the success bit recorded on the kill
events themselves, and the same kill URLs. -/
theorem c8_kill_failures_ignored (app : App) (w : World) (args0 : List String) (b1 b2 : Bool) :
    (test app { w with kill1Fails := b1, kill2Fails := b2 } args0).outcome
      = (test app w args0).outcome ∧
    (test app { w with kill1Fails := b1, kill2Fails := b2 } args0).events.map scrubKill
      = (test app w args0).events.map scrubKill ∧
    killURLs (test app { w with kill1Fails := b1, kill2Fails := b2 } args0)
      = killURLs (test app w args0) := by
  refine ⟨?_, ?_, ?_⟩ <;>
    (cases hok : (parseArgs args0).ok <;> cases hpo : w.popenFails <;>
      rcases hr : (waitReady w.loopObs).2 with _ | b <;> first
        | (cases b <;> cases hcall : w.callFails <;> cases hf : w.failedExists <;>
            simp [test, killURLs, hok, hpo, hr, hcall, hf, scrubKill, killOf,
              List.filterMap_append, mkRunnerCmd, cpArgsOf])
        | simp [test, killURLs, hok, hpo, hr, scrubKill, killOf, List.filterMap_append])

/-! ## C5 -/

/-- Counterexample to C5.  In the run below, the temp-directory deletion
(`rmtree /app/tmp`) does come first, but the result-directory deletion
(`rmtree /app/test-result`) happens *after* the first kill request and
*after* the ad hoc flag parsing (witnessed by the parse block's own
output `~ use phantomjs path : /x`), contradicting the claim that both
directory deletions precede flag parsing.  (It does still precede the
server start.) -/
theorem c5_counterexample :
    (test app0 w0 ["--selenium", "--phantomjs=/x"]).events.take 12 =
      [Ev.print "~ Running tests with webdriver", Ev.print "~ Ctrl+C to stop", Ev.print "~ ",
       Ev.print "~ Deleting /app/tmp", Ev.existsCheck "/app/tmp", Ev.rmtree "/app/tmp",
       Ev.print "~", Ev.urlopen "http://localhost:/@kill" false,
       Ev.print "~ use phantomjs path : /x", Ev.print "~~~~~",
       Ev.existsCheck "/app/test-result", Ev.rmtree "/app/test-result"] ∧
    Ev.rmtree "/app/test-result" ∉
      (test app0 w0 ["--selenium", "--phantomjs=/x"]).events.take 11 := by
  decide

/-- A sublist of `t` is a sublist of `pre ++ t`. -/
theorem sublist_skip {α : Type} {l t : List α} (pre : List α) (h : List.Sublist l t) :
    List.Sublist l (pre ++ t) :=
  h.trans (List.sublist_append_right pre t)

/-- C5 amended: the script's steps run in the strict sequence: temp-dir
deletion, first kill request, (flag parsing,) result-dir deletion, server
start, test-runner invocation, second kill request, marker inspection.
The result-directory deletion happens *after* the first kill signal and
after flag parsing — not up front with the temp deletion as the claim
states — but still before the server starts.  (That flag parsing precedes
the server start is visible in the `popen` event itself: the server
command is built from the already-parsed argument list
`(parseArgs args0).args`.) -/
theorem c5_amended_step_order (app : App) (w : World) (args0 : List String)
    (hp : (parseArgs args0).ok = true) (hpo : w.popenFails = false)
    (hready : (waitReady w.loopObs).2 = some true) (hcall : w.callFails = false)
    (htmp : w.tmpExists = true) (hres : w.testResultExists = true) :
    List.Sublist
    [Ev.rmtree (pathJoin app.path "tmp"),
     Ev.urlopen ("http://localhost:" ++ selPort app ++ "/@kill") (!w.kill1Fails),
     Ev.rmtree (pathJoin app.path "test-result"),
     Ev.popen (app.javaCmd (parseArgs args0).args),
     Ev.callProc (mkRunnerCmd app w (parseArgs args0).add_options),
     Ev.urlopen (selProtocol app ++ "://localhost:" ++ app.readConf "http.port" ++ "/@kill") (!w.kill2Fails),
     Ev.existsCheck (pathJoin app.path "test-result/result.failed")]
    (test app w args0).events := by
  have htr : (test app w args0).events =
      [.print "~ Running tests with webdriver", .print "~ Ctrl+C to stop", .print "~ ",
       .print ("~ Deleting " ++ osNormpath (pathJoin app.path "tmp")),
       .existsCheck (pathJoin app.path "tmp")] ++
      (Ev.rmtree (pathJoin app.path "tmp") ::
        ([Ev.print "~"] ++
        (Ev.urlopen ("http://localhost:" ++ selPort app ++ "/@kill") (!w.kill1Fails) ::
          ((parseArgs args0).events ++
          ([Ev.existsCheck (pathJoin app.path "test-result")] ++
          (Ev.rmtree (pathJoin app.path "test-result") ::
            ([Ev.openW (pathJoin app.logPath "system.out")] ++
            (Ev.popen (app.javaCmd (parseArgs args0).args) ::
              ([Ev.openR (pathJoin app.logPath "system.out")] ++
              ((waitReady w.loopObs).1 ++
              ([Ev.print "~"] ++
              (Ev.callProc (mkRunnerCmd app w (parseArgs args0).add_options) ::
                ([Ev.print "~"] ++
                (Ev.urlopen (selProtocol app ++ "://localhost:" ++ app.readConf "http.port" ++ "/@kill")
                    (!w.kill2Fails) ::
                  ([Ev.existsCheck (pathJoin app.path "test-result/result.passed")] ++
                  ((if w.passedExists then [Ev.print "~ All tests passed", Ev.print "~"] else []) ++
                  (Ev.existsCheck (pathJoin app.path "test-result/result.failed") ::
                    (if w.failedExists then
                      [Ev.print ("~ Some tests have failed. See file://" ++
                        pathJoin app.path "test-result" ++ " for results"), Ev.print "~"]
                     else [])))))))))))))))))) := by
    rw [test_events_full app w args0 hp hpo hready hcall, htmp, hres]
    simp
  rw [htr]
  apply sublist_skip
  apply List.Sublist.cons₂
  apply sublist_skip
  apply List.Sublist.cons₂
  apply sublist_skip
  apply sublist_skip
  apply List.Sublist.cons₂
  apply sublist_skip
  apply List.Sublist.cons₂
  apply sublist_skip
  apply sublist_skip
  apply sublist_skip
  apply List.Sublist.cons₂
  apply sublist_skip
  apply List.Sublist.cons₂
  apply sublist_skip
  apply sublist_skip
  apply List.Sublist.cons₂
  exact List.nil_sublist _

/-- Witness for C5's amended theorem at a concrete run. -/
theorem c5_amended_step_order_witness :
    List.Sublist
    [Ev.rmtree (pathJoin app0.path "tmp"),
     Ev.urlopen ("http://localhost:" ++ selPort app0 ++ "/@kill") (!w0.kill1Fails),
     Ev.rmtree (pathJoin app0.path "test-result"),
     Ev.popen (app0.javaCmd (parseArgs []).args),
     Ev.callProc (mkRunnerCmd app0 w0 (parseArgs []).add_options),
     Ev.urlopen (selProtocol app0 ++ "://localhost:" ++ app0.readConf "http.port" ++ "/@kill") (!w0.kill2Fails),
     Ev.existsCheck (pathJoin app0.path "test-result/result.failed")]
    (test app0 w0 []).events :=
  c5_amended_step_order app0 w0 []
    (by decide) (by decide) (by decide) (by decide) (by decide) (by decide)

/-! ## Lemmas about `getopt` on symbolic inputs (for C6 and C7) -/

theorem strData_append (a b : String) : (a ++ b).data = a.data ++ b.data := rfl

theorem phantomTok_data (path : String) :
    ("--phantomjs=" ++ path).data =
      '-' :: '-' :: 'p' :: 'h' :: 'a' :: 'n' :: 't' :: 'o' :: 'm' :: 'j' :: 's' :: '='
        :: path.data := by
  rw [strData_append]
  rfl

theorem ne_of_data_ne_at (a b : String) (i : Nat) (h : a.data[i]? ≠ b.data[i]?) : a ≠ b :=
  fun e => h (by rw [e])

/-- A `--phantomjs=`-prefixed token differs from every string whose third
character is not `'p'` (in particular from the three flags, `"-"` and
`"--"`). -/
theorem phantomTok_ne (path : String) (s : String) (hs : s.data[2]? ≠ some 'p') :
    ("--phantomjs=" ++ path) ≠ s := by
  apply ne_of_data_ne_at _ _ 2
  rw [phantomTok_data]
  intro e
  exact hs (by simpa using e.symm)

/-- The `getopt` while-loop stops at this list without consuming
anything: it is empty, or its head is a non-option token or `"-"`. -/
def getoptStops : List String → Prop
  | [] => True
  | b :: _ => strStartsWith b "-" = false ∨ b = "-"

theorem getopt_go_stops (rest : List String) (h : getoptStops rest)
    (opts : List (String × String)) : getopt_go opts rest = .ok (opts, rest) := by
  cases rest with
  | nil => rfl
  | cons b t =>
    have h' : strStartsWith b "-" = false ∨ b = "-" := h
    have hs : ∀ n, getopt_step b n = .stop := by
      intro n
      unfold getopt_step
      rw [if_pos h']
    rw [getopt_go.eq_def]
    cases t <;> simp only [hs]

/-- `getopt` on a leading `--phantomjs=<path>` token followed by a
stopping list: one option pair, nothing else consumed. -/
theorem pygetopt_phantomEq (path : String) (rest : List String) (h : getoptStops rest) :
    pygetopt (("--phantomjs=" ++ path) :: rest) = .ok ([("--phantomjs", path)], rest) := by
  show getopt_go [] _ = _
  simp only [getopt_go, List.head?]
  rw [getopt_go_stops rest h]
  try rfl

/-- `getopt` on leading `-p <path>` followed by a stopping list. -/
theorem pygetopt_p (path : String) (rest : List String) (h : getoptStops rest) :
    pygetopt ("-p" :: path :: rest) = .ok ([("-p", path)], rest) := by
  show getopt_go [] _ = _
  simp only [getopt_go, List.head?]
  rw [getopt_go_stops rest h]
  try rfl

theorem flag_step_raise_unit : ∀ n, getopt_step "--unit" n = .raise := fun _ => rfl

theorem flag_step_raise_functional : ∀ n, getopt_step "--functional" n = .raise := fun _ => rfl

theorem flag_step_raise_selenium : ∀ n, getopt_step "--selenium" n = .raise := fun _ => rfl

/-- On a list whose members are only the three flags or non-option
tokens, `getopt` either raises (leftover flag at the head: unknown long
option) or parses no options and leaves the list unchanged. -/
theorem pygetopt_benign (l : List String)
    (H : ∀ a ∈ l, a = "--unit" ∨ a = "--functional" ∨ a = "--selenium" ∨
      strStartsWith a "-" = false) :
    pygetopt l = .error () ∨ pygetopt l = .ok ([], l) := by
  cases l with
  | nil => right; rfl
  | cons a t =>
    rcases H a (List.mem_cons_self a t) with h | h | h | h
    · subst h
      left
      show getopt_go [] _ = _
      rw [getopt_go.eq_def]
      cases t <;> simp only [flag_step_raise_unit]
    · subst h
      left
      show getopt_go [] _ = _
      rw [getopt_go.eq_def]
      cases t <;> simp only [flag_step_raise_functional]
    · subst h
      left
      show getopt_go [] _ = _
      rw [getopt_go.eq_def]
      cases t <;> simp only [flag_step_raise_selenium]
    · right
      exact getopt_go_stops (a :: t) (Or.inl h) []

/-- On such a list the whole `try/except getopt` block leaves
`add_options` and `args` unchanged and completes. -/
theorem phantomBlock_fields (add l : List String)
    (H : ∀ a ∈ l, a = "--unit" ∨ a = "--functional" ∨ a = "--selenium" ∨
      strStartsWith a "-" = false) :
    (phantomBlock add l).ok = true ∧ (phantomBlock add l).args = l ∧
    (phantomBlock add l).add_options = add := by
  rcases pygetopt_benign l H with hg | hg <;> simp [phantomBlock, hg, phantomLoop]

/-! ## C6 -/

/-- The parameter-reading block on an argument list containing only the
three flags and non-option tokens: it completes, removes exactly the
first occurrence of each present flag, and adds exactly the corresponding
system properties in order. -/
theorem parseArgs_no_options (args0 : List String)
    (H : ∀ a ∈ args0, a = "--unit" ∨ a = "--functional" ∨ a = "--selenium" ∨
      strStartsWith a "-" = false) :
    (parseArgs args0).ok = true ∧
    (parseArgs args0).args =
      ((args0.erase "--unit").erase "--functional").erase "--selenium" ∧
    (parseArgs args0).add_options =
      (if "--unit" ∈ args0 then ["-DrunUnitTests=true"] else []) ++
      (if "--functional" ∈ args0 then ["-DrunFunctionalTests=true"] else []) ++
      (if "--selenium" ∈ args0 then ["-DrunSeleniumTests=true"] else []) := by
  have Hany : ∀ (L : List String), L ⊆ args0 → ∀ a ∈ L,
      a = "--unit" ∨ a = "--functional" ∨ a = "--selenium" ∨ strStartsWith a "-" = false :=
    fun L hsub a ha => H a (hsub ha)
  have hFU : "--functional" ∈ args0.erase "--unit" ↔ "--functional" ∈ args0 :=
    List.mem_erase_of_ne (by decide)
  have hSU : "--selenium" ∈ args0.erase "--unit" ↔ "--selenium" ∈ args0 :=
    List.mem_erase_of_ne (by decide)
  have hSF : ∀ l : List String, "--selenium" ∈ l.erase "--functional" ↔ "--selenium" ∈ l :=
    fun l => List.mem_erase_of_ne (by decide)
  by_cases hu : "--unit" ∈ args0 <;> by_cases hf : "--functional" ∈ args0 <;>
    by_cases hs : "--selenium" ∈ args0
  · -- unit, functional, selenium all present
    have hcu : args0.count "--unit" ≠ 0 := fun h0 => List.count_eq_zero.mp h0 hu
    have hcf : (args0.erase "--unit").count "--functional" ≠ 0 :=
      fun h0 => List.count_eq_zero.mp h0 (hFU.mpr hf)
    have hcs : ((args0.erase "--unit").erase "--functional").count "--selenium" ≠ 0 :=
      fun h0 => List.count_eq_zero.mp h0 ((hSF _).mpr (hSU.mpr hs))
    obtain ⟨h1, h2, h3⟩ := phantomBlock_fields
      ["-DrunUnitTests=true", "-DrunFunctionalTests=true", "-DrunSeleniumTests=true"]
      (((args0.erase "--unit").erase "--functional").erase "--selenium")
      (Hany _ ((List.erase_subset _ _).trans ((List.erase_subset _ _).trans
        (List.erase_subset _ _))))
    simp [parseArgs, pyRemove_eq_erase, List.count_eq_zero, hFU, hSU, hSF, hcu, hcf, hcs, h1, h2, h3, hu, hf, hs]
  · -- unit, functional present; selenium absent
    have hcu : args0.count "--unit" ≠ 0 := fun h0 => List.count_eq_zero.mp h0 hu
    have hcf : (args0.erase "--unit").count "--functional" ≠ 0 :=
      fun h0 => List.count_eq_zero.mp h0 (hFU.mpr hf)
    have hcs : ((args0.erase "--unit").erase "--functional").count "--selenium" = 0 :=
      List.count_eq_zero.mpr (fun hm => hs (hSU.mp ((hSF _).mp hm)))
    have hes : ((args0.erase "--unit").erase "--functional").erase "--selenium" =
        (args0.erase "--unit").erase "--functional" :=
      List.erase_of_not_mem (fun hm => hs (hSU.mp ((hSF _).mp hm)))
    simp [parseArgs, pyRemove_eq_erase, List.count_eq_zero, hFU, hSU, hSF, hcu, hcf, hcs, hes, hu, hf, hs]
  · -- unit, selenium present; functional absent
    have hcu : args0.count "--unit" ≠ 0 := fun h0 => List.count_eq_zero.mp h0 hu
    have hcf : (args0.erase "--unit").count "--functional" = 0 :=
      List.count_eq_zero.mpr (fun hm => hf (hFU.mp hm))
    have hcs : (args0.erase "--unit").count "--selenium" ≠ 0 :=
      fun h0 => List.count_eq_zero.mp h0 (hSU.mpr hs)
    have hef : (args0.erase "--unit").erase "--functional" = args0.erase "--unit" :=
      List.erase_of_not_mem (fun hm => hf (hFU.mp hm))
    obtain ⟨h1, h2, h3⟩ := phantomBlock_fields
      ["-DrunUnitTests=true", "-DrunSeleniumTests=true"]
      ((args0.erase "--unit").erase "--selenium")
      (Hany _ ((List.erase_subset _ _).trans (List.erase_subset _ _)))
    simp [parseArgs, pyRemove_eq_erase, List.count_eq_zero, hFU, hSU, hSF, hcu, hcf, hcs, hef, h1, h2, h3, hu, hf, hs]
  · -- unit present; functional, selenium absent
    have hcu : args0.count "--unit" ≠ 0 := fun h0 => List.count_eq_zero.mp h0 hu
    have hcf : (args0.erase "--unit").count "--functional" = 0 :=
      List.count_eq_zero.mpr (fun hm => hf (hFU.mp hm))
    have hcs : (args0.erase "--unit").count "--selenium" = 0 :=
      List.count_eq_zero.mpr (fun hm => hs (hSU.mp hm))
    have hef : (args0.erase "--unit").erase "--functional" = args0.erase "--unit" :=
      List.erase_of_not_mem (fun hm => hf (hFU.mp hm))
    have hes : (args0.erase "--unit").erase "--selenium" = args0.erase "--unit" :=
      List.erase_of_not_mem (fun hm => hs (hSU.mp hm))
    simp [parseArgs, pyRemove_eq_erase, List.count_eq_zero, hFU, hSU, hSF, hcu, hcf, hcs, hef, hes, hu, hf, hs]
  · -- functional, selenium present; unit absent
    have hcu : args0.count "--unit" = 0 := List.count_eq_zero.mpr hu
    have hcf : args0.count "--functional" ≠ 0 := fun h0 => List.count_eq_zero.mp h0 hf
    have hcs : (args0.erase "--functional").count "--selenium" ≠ 0 :=
      fun h0 => List.count_eq_zero.mp h0 ((hSF _).mpr hs)
    have heu : args0.erase "--unit" = args0 := List.erase_of_not_mem hu
    obtain ⟨h1, h2, h3⟩ := phantomBlock_fields
      ["-DrunFunctionalTests=true", "-DrunSeleniumTests=true"]
      ((args0.erase "--functional").erase "--selenium")
      (Hany _ ((List.erase_subset _ _).trans (List.erase_subset _ _)))
    simp [parseArgs, pyRemove_eq_erase, List.count_eq_zero, hFU, hSU, hSF, hcu, hcf, hcs, heu, h1, h2, h3, hu, hf, hs]
  · -- functional present; unit, selenium absent
    have hcu : args0.count "--unit" = 0 := List.count_eq_zero.mpr hu
    have hcf : args0.count "--functional" ≠ 0 := fun h0 => List.count_eq_zero.mp h0 hf
    have hcs : (args0.erase "--functional").count "--selenium" = 0 :=
      List.count_eq_zero.mpr (fun hm => hs ((hSF _).mp hm))
    have heu : args0.erase "--unit" = args0 := List.erase_of_not_mem hu
    have hes : (args0.erase "--functional").erase "--selenium" = args0.erase "--functional" :=
      List.erase_of_not_mem (fun hm => hs ((hSF _).mp hm))
    simp [parseArgs, pyRemove_eq_erase, List.count_eq_zero, hFU, hSU, hSF, hcu, hcf, hcs, heu, hes, hu, hf, hs]
  · -- selenium present; unit, functional absent
    have hcu : args0.count "--unit" = 0 := List.count_eq_zero.mpr hu
    have hcf : args0.count "--functional" = 0 := List.count_eq_zero.mpr hf
    have hcs : args0.count "--selenium" ≠ 0 := fun h0 => List.count_eq_zero.mp h0 hs
    have heu : args0.erase "--unit" = args0 := List.erase_of_not_mem hu
    have hef : args0.erase "--functional" = args0 := List.erase_of_not_mem hf
    obtain ⟨h1, h2, h3⟩ := phantomBlock_fields ["-DrunSeleniumTests=true"]
      (args0.erase "--selenium") (Hany _ (List.erase_subset _ _))
    simp [parseArgs, pyRemove_eq_erase, List.count_eq_zero, hFU, hSU, hSF, hcu, hcf, hcs, heu, hef, h1, h2, h3, hu, hf, hs]
  · -- no flag present
    have hcu : args0.count "--unit" = 0 := List.count_eq_zero.mpr hu
    have hcf : args0.count "--functional" = 0 := List.count_eq_zero.mpr hf
    have hcs : args0.count "--selenium" = 0 := List.count_eq_zero.mpr hs
    have heu : args0.erase "--unit" = args0 := List.erase_of_not_mem hu
    have hef : args0.erase "--functional" = args0 := List.erase_of_not_mem hf
    have hes : args0.erase "--selenium" = args0 := List.erase_of_not_mem hs
    simp [parseArgs, pyRemove_eq_erase, List.count_eq_zero, hFU, hSU, hSF, hcu, hcf, hcs, heu, hef, hes, hu, hf, hs]

/-- Counterexample to C6.  With `args = ["--unit", "--unit"]` the flag
`--unit` is present, but `args.remove('--unit')` drops only the first
occurrence, so `--unit` is still in the argument list handed to
`app.java_cmd` and hence to the server command — the claim says a present
flag is removed from that list.  (The property is still added once.) -/
theorem c6_counterexample :
    serverCmdOf (test app0 w0 ["--unit", "--unit"]) = some ["java", "--unit"] ∧
    "--unit" ∈ (parseArgs ["--unit", "--unit"]).args ∧
    (parseArgs ["--unit", "--unit"]).add_options = ["-DrunUnitTests=true"] := by
  decide

/-- C6 amended: on an argument list whose members are only the three
flags and non-option tokens, each present flag has exactly its *first*
occurrence removed from the list passed on to the server command (extra
occurrences stay), each present flag contributes its system property to
the test-runner options exactly once (in the fixed unit, functional,
selenium order), and absent flags contribute nothing. -/
theorem c6_amended_flag_handling (args0 : List String)
    (H : ∀ a ∈ args0, a = "--unit" ∨ a = "--functional" ∨ a = "--selenium" ∨
      strStartsWith a "-" = false) :
    (parseArgs args0).ok = true ∧
    (parseArgs args0).add_options =
      (if "--unit" ∈ args0 then ["-DrunUnitTests=true"] else []) ++
      (if "--functional" ∈ args0 then ["-DrunFunctionalTests=true"] else []) ++
      (if "--selenium" ∈ args0 then ["-DrunSeleniumTests=true"] else []) ∧
    (∀ x, x = "--unit" ∨ x = "--functional" ∨ x = "--selenium" →
      (parseArgs args0).args.count x = args0.count x - 1) ∧
    (∀ x, x ≠ "--unit" → x ≠ "--functional" → x ≠ "--selenium" →
      (parseArgs args0).args.count x = args0.count x) := by
  obtain ⟨hok, hargs, hadd⟩ := parseArgs_no_options args0 H
  refine ⟨hok, hadd, ?_, ?_⟩
  · rintro x (rfl | rfl | rfl) <;> rw [hargs]
    · rw [List.count_erase_of_ne (by decide), List.count_erase_of_ne (by decide),
        List.count_erase_self]
    · rw [List.count_erase_of_ne (by decide), List.count_erase_self,
        List.count_erase_of_ne (by decide)]
    · rw [List.count_erase_self, List.count_erase_of_ne (by decide),
        List.count_erase_of_ne (by decide)]
  · intro x h1 h2 h3
    rw [hargs, List.count_erase_of_ne h3, List.count_erase_of_ne h2,
      List.count_erase_of_ne h1]

/-- Witness for C6's amended theorem: a duplicated `--functional` has one
occurrence removed and yields its property once. -/
theorem c6_amended_flag_handling_witness :
    (parseArgs ["--functional", "x", "--functional"]).add_options =
      ["-DrunFunctionalTests=true"] ∧
    (parseArgs ["--functional", "x", "--functional"]).args.count "--functional" = 1 := by
  have h := c6_amended_flag_handling ["--functional", "x", "--functional"] (by decide)
  exact ⟨h.2.1.trans (by decide), (h.2.2.1 "--functional" (by tauto)).trans (by decide)⟩

/-! ## C7 -/

/-- Counterexample to C7.  Supplying `--phantomjs=/x` *without*
`--selenium` has no effect at all: the `try/except getopt` block of lines
82-92 is tab-indented, which Python 2 expands to column 8, so it belongs
to the `if args.count('--selenium'):` suite.  No
`-Dphantomjs.binary.path` property is appended to the test-runner command
and the option is not removed from the server argument list. -/
theorem c7_counterexample :
    runnerCmdOf (test app0 w0 ["--phantomjs=/x"]) =
      some ["java", "-classpath", "a.jar:b.jar", "-Dwebdrive.classes=",
        "-Dwebdrive.timeout=", "-Dwebdrive.htmlunit.js.enable=",
        "-Dwebdrive.test.retry=", "-Dapplication.baseUrl=",
        "-Dapplication.url=http://localhost:", "play.modules.webdrive.WebDriverRunner"] ∧
    "-Dphantomjs.binary.path=/x" ∉
      ["java", "-classpath", "a.jar:b.jar", "-Dwebdrive.classes=",
        "-Dwebdrive.timeout=", "-Dwebdrive.htmlunit.js.enable=",
        "-Dwebdrive.test.retry=", "-Dapplication.baseUrl=",
        "-Dapplication.url=http://localhost:", "play.modules.webdrive.WebDriverRunner"] ∧
    serverCmdOf (test app0 w0 ["--phantomjs=/x"]) = some ["java", "--phantomjs=/x"] := by
  decide

/-- C7 amended: the PhantomJS option has effect only when `--selenium` is
also supplied (the getopt block is nested in the selenium `if`) and the
option leads the remaining argument list.  Then
`-Dphantomjs.binary.path=<path>` is appended to the options used for the
test-runner command line and the *first element* of the remaining list is
removed: `--phantomjs=<path>` (one token) disappears entirely from the
list passed to the server command, while with `-p <path>` only the `-p`
token is removed and the separate `<path>` argument remains in that list.
Without `--selenium` nothing is appended or removed. -/
theorem c7_amended_phantomjs (path : String) (rest : List String)
    (hstop : getoptStops rest)
    (hu : "--unit" ∉ rest) (hf : "--functional" ∉ rest) (hs : "--selenium" ∉ rest)
    (hpu : path ≠ "--unit") (hpf : path ≠ "--functional") (hps : path ≠ "--selenium") :
    parseArgs ("--selenium" :: ("--phantomjs=" ++ path) :: rest) =
      ⟨["-DrunSeleniumTests=true", "-Dphantomjs.binary.path=" ++ path], rest,
       [.print ("~ use phantomjs path : " ++ path), .print "~~~~~"], true⟩ ∧
    parseArgs ("--selenium" :: "-p" :: path :: rest) =
      ⟨["-DrunSeleniumTests=true", "-Dphantomjs.binary.path=" ++ path], path :: rest,
       [.print ("~ use phantomjs path : " ++ path), .print "~~~~~"], true⟩ ∧
    parseArgs (("--phantomjs=" ++ path) :: rest) =
      ⟨[], ("--phantomjs=" ++ path) :: rest, [], true⟩ := by
  have hru : List.count "--unit" rest = 0 := List.count_eq_zero.mpr hu
  have hrf : List.count "--functional" rest = 0 := List.count_eq_zero.mpr hf
  have hrs : List.count "--selenium" rest = 0 := List.count_eq_zero.mpr hs
  have htU : ("--phantomjs=" ++ path) ≠ "--unit" := phantomTok_ne path _ (by decide)
  have htF : ("--phantomjs=" ++ path) ≠ "--functional" := phantomTok_ne path _ (by decide)
  have htS : ("--phantomjs=" ++ path) ≠ "--selenium" := phantomTok_ne path _ (by decide)
  have hcontains : strContains "--phantomjs" "--phantomjs" = true := rfl
  have hcontainsP : strContains "--phantomjs" "-p" = true := rfl
  refine ⟨?_, ?_, ?_⟩
  · simp [parseArgs, List.count_cons, hru, hrf, hrs, htU, htF, htS, pyRemove,
      phantomBlock, pygetopt_phantomEq path rest hstop, phantomLoop, hcontains]
  · simp [parseArgs, List.count_cons, hru, hrf, hrs, hpu, hpf, hps, pyRemove,
      phantomBlock, pygetopt_p path rest hstop, phantomLoop, hcontainsP]
  · simp [parseArgs, List.count_cons, hru, hrf, hrs, htU, htF, htS]

/-- Witness for C7's amended theorem: the `-p <path>` form at a concrete
path, with the path argument left over for the server command. -/
theorem c7_amended_phantomjs_witness :
    parseArgs ["--selenium", "-p", "/opt/phantomjs", "x"] =
      ⟨["-DrunSeleniumTests=true", "-Dphantomjs.binary.path=/opt/phantomjs"],
       ["/opt/phantomjs", "x"],
       [.print "~ use phantomjs path : /opt/phantomjs", .print "~~~~~"], true⟩ :=
  (c7_amended_phantomjs "/opt/phantomjs" ["x"]
    (Or.inl (by decide)) (by decide) (by decide) (by decide)
    (by decide) (by decide) (by decide)).2.1

end WebDrive
